import Mathlib

/-!
Shallow embedding of the analysis-and-repair core of `mp3-check`: the
silence model, the output-parsing loop of `getSilenceInfo`, the six
boundary-classifier predicates, the problem counter `countProblems`, and
the pure content of the repair worker in `fixProblems` (the planned trim
window and the sequence of filesystem/process actions per track).

Go `float64` values are modelled as rationals; all arithmetic in the core
is addition, subtraction, `math.Max`/`math.Min` and order comparisons, so
the rational model is exact on the inputs considered here.  The Go
`silence` struct has fields `start` and `end`; `end` is a reserved word,
so the second field is named `stop`.
-/

namespace Mp3Check

/-- Constant `tolerance = 0.01` from the source. -/
def tolerance : ℚ := 1 / 100

/-- Constant `maxOverlapping = 10` from the source. -/
def maxOverlapping : ℚ := 10

/-- Constant `maxSilence = 2` from the source. -/
def maxSilence : ℚ := 2

/-- Constant `minSilence = 0.6` from the source. -/
def minSilence : ℚ := 3 / 5

/-- Constant `silenceTolerance = 0.4` from the source. -/
def silenceTolerance : ℚ := 2 / 5

/-- The `silence` struct: one detected silence interval.  `stop` models the
Go field `end`. -/
structure Silence where
  start : ℚ
  stop : ℚ
deriving DecidableEq, Repr

/-- One line of the external tool's combined output, as classified by the
three regular expressions `silenceStart`, `silenceEnd` and `duration` of
the source: a `silence_start: T` line, a `silence_end: T` line, a
`Duration: HH:MM:SS.ff, start: S` line carrying hours, minutes, seconds
and start offset, or any line matching none of the three. -/
inductive OutputLine
  | silenceStartLine (t : ℚ)
  | silenceEndLine (t : ℚ)
  | durationLine (hours minutes seconds offset : ℚ)
  | otherLine
deriving DecidableEq, Repr

/-- The line loop of `getSilenceInfo`: `cs` is `currentSilence.start`
(zero-initialised and persistent across iterations), `d` the duration
parsed so far (zero until a duration line is seen), `result` the retained
intervals in order of appending.  A `silence_end` line at time `t` closes
the interval `⟨cs, t⟩`, which is retained exactly when its length exceeds
`minSilence`, or it starts within `tolerance` of 0, or it ends within
`tolerance` of the duration parsed so far. -/
def getSilenceInfoLoop : List OutputLine → ℚ → ℚ → List Silence → List Silence × ℚ
  | [], _, d, result => (result, d)
  | OutputLine.silenceStartLine t :: rest, _, d, result =>
      getSilenceInfoLoop rest t d result
  | OutputLine.silenceEndLine t :: rest, cs, d, result =>
      let currentDuration := t - cs
      if currentDuration > minSilence ∨ cs < tolerance ∨ d - t < tolerance then
        getSilenceInfoLoop rest cs d (result ++ [⟨cs, t⟩])
      else
        getSilenceInfoLoop rest cs d result
  | OutputLine.durationLine hours minutes seconds offset :: rest, cs, _, result =>
      getSilenceInfoLoop rest cs (hours * 3600 + minutes * 60 + seconds - offset) result
  | OutputLine.otherLine :: rest, cs, d, result =>
      getSilenceInfoLoop rest cs d result

/-- `getSilenceInfo`, with the external `ffmpeg` invocation abstracted to
the list of output lines it produced.  The `longSilence` flag only selects
the `silencedetect` argument handed to the external tool (minimum duration
`maxSilence + silenceTolerance` when long, noise `-25dB` and minimum
duration `minSilence - silenceTolerance` when short); it does not occur in
the in-code retention filter. -/
def getSilenceInfo (longSilence : Bool) (lines : List OutputLine) : List Silence × ℚ :=
  getSilenceInfoLoop lines 0 0 []

/-- The `track` struct, restricted to the fields read by the classifier,
the counter and the repair worker (the parent-album pointer plays no part
in them). -/
structure Track where
  name : String
  path : String
  trackNumber : Int
  diskNumber : Int
  silences : List Silence
  longSilences : List Silence
  duration : ℚ
deriving DecidableEq, Repr

/-- `overlapsAtTheEnd`: false on an empty short-silence set, otherwise
true exactly when `duration - lastSilence.end` is strictly between
`tolerance` and `maxOverlapping`. -/
def overlapsAtTheEnd (t : Track) : Bool :=
  match t.silences.getLast? with
  | none => false
  | some lastSilence =>
      let difference := t.duration - lastSilence.stop
      if difference < maxOverlapping ∧ difference > tolerance then true else false

/-- `overlapsAtTheBeginning`: false on an empty short-silence set,
otherwise true exactly when `firstSilence.start` is strictly between
`tolerance` and `maxOverlapping`. -/
def overlapsAtTheBeginning (t : Track) : Bool :=
  match t.silences.head? with
  | none => false
  | some firstSilence =>
      if firstSilence.start < maxOverlapping ∧ firstSilence.start > tolerance then true
      else false

/-- `truncatedAtTheBeginning`: true on an empty short-silence set, or when
the first short silence starts at `maxOverlapping` or later. -/
def truncatedAtTheBeginning (t : Track) : Bool :=
  match t.silences.head? with
  | none => true
  | some firstSilence =>
      if firstSilence.start ≥ maxOverlapping then true else false

/-- `truncatedAtTheEnd`: true on an empty short-silence set, or when the
last short silence ends `maxOverlapping` or more before `duration`. -/
def truncatedAtTheEnd (t : Track) : Bool :=
  match t.silences.getLast? with
  | none => true
  | some lastSilence =>
      let difference := t.duration - lastSilence.stop
      if difference ≥ maxOverlapping then true else false

/-- `hugeSilenceAtTheBeginning`: false on an empty long-silence set,
otherwise true exactly when the first long silence starts before
`maxOverlapping`. -/
def hugeSilenceAtTheBeginning (t : Track) : Bool :=
  match t.longSilences.head? with
  | none => false
  | some firstSilence =>
      if firstSilence.start ≥ maxOverlapping then false else true

/-- `hugeSilenceAtTheEnd`: false on an empty long-silence set, otherwise
true exactly when the last long silence ends less than `maxOverlapping`
before `duration`. -/
def hugeSilenceAtTheEnd (t : Track) : Bool :=
  match t.longSilences.getLast? with
  | none => false
  | some lastSilence =>
      let difference := t.duration - lastSilence.stop
      if difference ≥ maxOverlapping then false else true

/-- The trim window `(start, end)` computed by the worker body of
`fixProblems`: `start` begins at 0 and is raised by `math.Max` for the
overlap and huge-silence conditions at the beginning, `end` begins at
`duration` and is lowered by `math.Min` for the conditions at the end.
The indexing `t.silences[0]` / `t.silences[len-1]` in the source happens
only under the corresponding predicate, which guarantees non-emptiness,
so `Option.getD` with a dummy default is exact. -/
def planWindow (t : Track) : ℚ × ℚ :=
  let start0 : ℚ := 0
  let end0 : ℚ := t.duration
  let start1 :=
    if overlapsAtTheBeginning t then
      max start0 ((t.silences.head?.getD ⟨0, 0⟩).start + silenceTolerance)
    else start0
  let start2 :=
    if hugeSilenceAtTheBeginning t then
      max start1 ((t.longSilences.head?.getD ⟨0, 0⟩).stop - maxSilence)
    else start1
  let end1 :=
    if overlapsAtTheEnd t then
      min end0 ((t.silences.getLast?.getD ⟨0, 0⟩).stop - silenceTolerance)
    else end0
  let end2 :=
    if hugeSilenceAtTheEnd t then
      min end1 ((t.longSilences.getLast?.getD ⟨0, 0⟩).start + maxSilence)
    else end1
  (start2, end2)

/-- One externally visible action of the `fixProblems` worker on a track
whose path is carried in the constructor: removing the temp sibling
`path + ".tmp.mp3"`, running the external trim command (`-ss start`,
`-t length`, output to the temp sibling), removing the original file, or
renaming the temp sibling onto the original path. -/
inductive FsOp
  | removeTmp (path : String)
  | runTrim (path : String) (start length : ℚ)
  | removeOrig (path : String)
  | renameTmpToOrig (path : String)
deriving DecidableEq, Repr

/-- The sequence of filesystem/process actions the `fixProblems` worker
performs on one track, indexed by whether the external trim command exits
successfully (`cmdOk`).  `fixProblems` feeds every track of the
collection to the workers, with no classification filter.  When the planned window differs from
`(0, duration)`, the stale temp sibling is removed, the trim command runs
with offset `start` and length `end - start`, and only on success the
original is removed and the temp renamed onto it; when the window is
exactly `(0, duration)`, nothing happens at all. -/
def fixTrackOps (t : Track) (cmdOk : Bool) : List FsOp :=
  let w := planWindow t
  if w.1 ≠ 0 ∨ w.2 ≠ t.duration then
    [FsOp.removeTmp t.path, FsOp.runTrim t.path w.1 (w.2 - w.1)] ++
      (if cmdOk then [FsOp.removeOrig t.path, FsOp.renameTmpToOrig t.path] else [])
  else
    []

/-- The per-track contribution to `countProblems`, as the pair
`(problems, fixable)`: the truncation branch is tested first and counts
`(1, 0)`; otherwise the four overlap/huge-silence predicates together
count `(1, 1)`; otherwise `(0, 0)`. -/
def countTrack (t : Track) : ℕ × ℕ :=
  if truncatedAtTheBeginning t || truncatedAtTheEnd t then (1, 0)
  else if overlapsAtTheEnd t || overlapsAtTheBeginning t
      || hugeSilenceAtTheBeginning t || hugeSilenceAtTheEnd t then (1, 1)
  else (0, 0)

/-- `countProblems`, over the track collection flattened to a list (the
map iteration order of the source does not affect the two sums). -/
def countProblems (ts : List Track) : ℕ × ℕ :=
  ts.foldl (fun acc t => (acc.1 + (countTrack t).1, acc.2 + (countTrack t).2)) (0, 0)

/-- C4's retention condition as the spec words it, for comparison with the
filter actually applied inside `getSilenceInfoLoop`: length exceeds the
profile's configured minimum duration (`minSilence - tolerance` for the
short profile, `maxSilence + tolerance` for the long one), or the interval
starts within `tolerance` of time 0, or it ends within `tolerance` of the
track's end `d`. -/
def specRetained (longSilence : Bool) (d : ℚ) (s : Silence) : Prop :=
  s.stop - s.start > (if longSilence then maxSilence + tolerance else minSilence - tolerance)
    ∨ s.start < tolerance ∨ d - s.stop < tolerance

/-- C8: a track whose short-silence interval set is empty is reported
truncated at both the beginning and the end, and neither overlap
predicate holds for it. -/
theorem c8_empty_short_set_truncated (t : Track) (h : t.silences = []) :
    truncatedAtTheBeginning t = true ∧ truncatedAtTheEnd t = true ∧
      overlapsAtTheBeginning t = false ∧ overlapsAtTheEnd t = false := by
  simp [truncatedAtTheBeginning, truncatedAtTheEnd, overlapsAtTheBeginning,
    overlapsAtTheEnd, h]

/-- C8 witness: the empty-short-set classification at a concrete track. -/
theorem c8_empty_short_set_truncated_witness :
    truncatedAtTheBeginning ⟨"w8", "w8", 1, 1, [], [⟨0, 1⟩], 180⟩ = true ∧
      truncatedAtTheEnd ⟨"w8", "w8", 1, 1, [], [⟨0, 1⟩], 180⟩ = true ∧
      overlapsAtTheBeginning ⟨"w8", "w8", 1, 1, [], [⟨0, 1⟩], 180⟩ = false ∧
      overlapsAtTheEnd ⟨"w8", "w8", 1, 1, [], [⟨0, 1⟩], 180⟩ = false :=
  c8_empty_short_set_truncated ⟨"w8", "w8", 1, 1, [], [⟨0, 1⟩], 180⟩ rfl

/-- C9: when the planned trim window is exactly `(0, duration)`, the
repair worker performs no action at all: no temp removal, no external
command, no remove, no rename. -/
theorem c9_full_window_noop (t : Track) (cmdOk : Bool)
    (h : planWindow t = (0, t.duration)) :
    fixTrackOps t cmdOk = [] := by
  simp [fixTrackOps, h]

/-- C9 witness: the no-op at a concrete healthy track. -/
theorem c9_full_window_noop_witness :
    fixTrackOps ⟨"w9", "w9", 1, 1, [], [], 180⟩ true = [] :=
  c9_full_window_noop ⟨"w9", "w9", 1, 1, [], [], 180⟩ true (by
    simp [planWindow, overlapsAtTheBeginning, overlapsAtTheEnd,
      hugeSilenceAtTheBeginning, hugeSilenceAtTheEnd])

/-- C1 counterexample: the detection run whose output holds
`silence_start: 0` and `silence_end: 0.3` but no parseable duration line
yields duration 0 together with a non-empty interval list, and on the
resulting track neither truncation predicate holds — duration 0 does not
force the truncated classification when the interval list is
non-empty. -/
theorem c1_counterexample :
    getSilenceInfo false
        [OutputLine.silenceStartLine 0, OutputLine.silenceEndLine (3/10)] =
      ([⟨0, 3/10⟩], 0) ∧
    truncatedAtTheBeginning ⟨"c1", "c1", 1, 1, [⟨0, 3/10⟩], [], 0⟩ = false ∧
    truncatedAtTheEnd ⟨"c1", "c1", 1, 1, [⟨0, 3/10⟩], [], 0⟩ = false := by
  norm_num [getSilenceInfo, getSilenceInfoLoop, truncatedAtTheBeginning,
    truncatedAtTheEnd, tolerance, minSilence, maxOverlapping]

/-- C1 (amended): when a detection run degrades to duration 0 and an
empty interval list (the tool-failure case of the spec), the track is
classified truncated at both ends; when only the duration line fails to
parse, the interval list may be non-empty and the truncation predicates
need not hold. -/
theorem c1_amended_zero_duration_empty_truncated (t : Track)
    (hd : t.duration = 0) (hs : t.silences = []) :
    truncatedAtTheBeginning t = true ∧ truncatedAtTheEnd t = true := by
  simp [truncatedAtTheBeginning, truncatedAtTheEnd, hs]

/-- C1 witness: the amended statement at a concrete degraded track. -/
theorem c1_amended_witness :
    truncatedAtTheBeginning ⟨"w1", "w1", 1, 1, [], [], 0⟩ = true ∧
      truncatedAtTheEnd ⟨"w1", "w1", 1, 1, [], [], 0⟩ = true :=
  c1_amended_zero_duration_empty_truncated ⟨"w1", "w1", 1, 1, [], [], 0⟩ rfl rfl

/-- C2 counterexample: a track with an empty short-silence set — hence
truncated at both ends — and the long silence `(0, 5)` over duration 180
is planned the window `(3, 180)`, and the repair worker does invoke the
external trim command on it: the executor is not guarded by the
truncation classification. -/
theorem c2_counterexample :
    truncatedAtTheBeginning ⟨"c2", "c2", 1, 1, [], [⟨0, 5⟩], 180⟩ = true ∧
    truncatedAtTheEnd ⟨"c2", "c2", 1, 1, [], [⟨0, 5⟩], 180⟩ = true ∧
    fixTrackOps ⟨"c2", "c2", 1, 1, [], [⟨0, 5⟩], 180⟩ false =
      [FsOp.removeTmp "c2", FsOp.runTrim "c2" 3 177] := by
  norm_num [truncatedAtTheBeginning, truncatedAtTheEnd, fixTrackOps, planWindow,
    overlapsAtTheBeginning, overlapsAtTheEnd, hugeSilenceAtTheBeginning,
    hugeSilenceAtTheEnd, maxOverlapping, maxSilence, silenceTolerance, tolerance]

/-- C2 (amended): the executor's trim is guarded only by the planned
window, not by the truncation classification; a track on which none of
the four overlap/huge-silence predicates holds — in particular the spec's
scenario track with both silence sets empty — keeps the window
`(0, duration)` and is never trimmed, while a truncated track on which
one of them holds is trimmed. -/
theorem c2_amended_no_fixable_predicate_noop (t : Track) (cmdOk : Bool)
    (h1 : overlapsAtTheBeginning t = false)
    (h2 : hugeSilenceAtTheBeginning t = false)
    (h3 : overlapsAtTheEnd t = false)
    (h4 : hugeSilenceAtTheEnd t = false) :
    fixTrackOps t cmdOk = [] := by
  simp [fixTrackOps, planWindow, h1, h2, h3, h4]

/-- C2 witness: the spec's scenario track (no silence intervals at all,
duration 180) is never trimmed. -/
theorem c2_amended_witness :
    fixTrackOps ⟨"w2", "w2", 1, 1, [], [], 180⟩ true = [] :=
  c2_amended_no_fixable_predicate_noop ⟨"w2", "w2", 1, 1, [], [], 180⟩ true
    (by simp [overlapsAtTheBeginning]) (by simp [hugeSilenceAtTheBeginning])
    (by simp [overlapsAtTheEnd]) (by simp [hugeSilenceAtTheEnd])

/-- C3 counterexample: on the spec's own scenario track (duration 200,
short intervals `[(0, 0.3)]`) `overlapsAtTheBeginning` is false — the
first interval starts at 0, which is not above `tolerance` — and the
planned start stays 0 rather than 0.7; moreover, on a track whose first
interval starts at 0.005 the claimed bound `0 < start < maxOverlapping`
holds with a non-empty set while the predicate is still false, because
the code compares the start against `tolerance`, not 0. -/
theorem c3_counterexample :
    overlapsAtTheBeginning ⟨"c3", "c3", 1, 1, [⟨0, 3/10⟩], [], 200⟩ = false ∧
    (planWindow ⟨"c3", "c3", 1, 1, [⟨0, 3/10⟩], [], 200⟩).1 = 0 ∧
    overlapsAtTheBeginning ⟨"c3b", "c3b", 1, 1, [⟨1/200, 1/2⟩], [], 200⟩ = false ∧
    (0 : ℚ) < 1/200 ∧ (1/200 : ℚ) < maxOverlapping ∧
    ([⟨(1/200 : ℚ), 1/2⟩] : List Silence) ≠ [] := by
  norm_num [overlapsAtTheBeginning, planWindow, overlapsAtTheEnd,
    hugeSilenceAtTheBeginning, hugeSilenceAtTheEnd, maxOverlapping, tolerance,
    silenceTolerance, maxSilence]

/-- C3 (amended): `overlapsAtTheBeginning` holds exactly when the short
set is non-empty and `tolerance < firstInterval.start < maxOverlapping`,
and `overlapsAtTheEnd` exactly when it is non-empty and
`tolerance < duration - lastInterval.end < maxOverlapping`; on the
scenario track (duration 200, short intervals `[(0, 0.3)]`)
`overlapsAtTheBeginning` is false, `truncatedAtTheBeginning` is false,
and the plan leaves `start = 0`. -/
theorem c3_amended_overlap_iff (t : Track) :
    (overlapsAtTheBeginning t = true ↔
      (t.silences ≠ [] ∧ tolerance < (t.silences.head?.getD ⟨0, 0⟩).start ∧
        (t.silences.head?.getD ⟨0, 0⟩).start < maxOverlapping)) ∧
    (overlapsAtTheEnd t = true ↔
      (t.silences ≠ [] ∧
        tolerance < t.duration - (t.silences.getLast?.getD ⟨0, 0⟩).stop ∧
        t.duration - (t.silences.getLast?.getD ⟨0, 0⟩).stop < maxOverlapping)) ∧
    overlapsAtTheBeginning ⟨"c3", "c3", 1, 1, [⟨0, 3/10⟩], [], 200⟩ = false ∧
    truncatedAtTheBeginning ⟨"c3", "c3", 1, 1, [⟨0, 3/10⟩], [], 200⟩ = false ∧
    (planWindow ⟨"c3", "c3", 1, 1, [⟨0, 3/10⟩], [], 200⟩).1 = 0 := by
  refine ⟨?_, ?_, ?_, ?_, ?_⟩
  · cases hs : t.silences.head? with
    | none =>
        have hnil : t.silences = [] := List.head?_eq_none_iff.mp hs
        simp [overlapsAtTheBeginning, hs, hnil]
    | some a =>
        have hne : t.silences ≠ [] := by
          intro hc
          rw [hc] at hs
          simp at hs
        by_cases h : a.start < maxOverlapping ∧ a.start > tolerance
        · simp only [overlapsAtTheBeginning, hs, if_pos h, Option.getD_some]
          exact ⟨fun _ => ⟨hne, h.2, h.1⟩, fun _ => trivial⟩
        · simp only [overlapsAtTheBeginning, hs, if_neg h, Option.getD_some]
          constructor
          · intro hc
            exact absurd hc (by simp)
          · intro hc
            exact absurd ⟨hc.2.2, hc.2.1⟩ h
  · cases hs : t.silences.getLast? with
    | none =>
        have hnil : t.silences = [] := List.getLast?_eq_none_iff.mp hs
        simp [overlapsAtTheEnd, hs, hnil]
    | some a =>
        have hne : t.silences ≠ [] := by
          intro hc
          rw [hc] at hs
          simp at hs
        by_cases h : t.duration - a.stop < maxOverlapping ∧ t.duration - a.stop > tolerance
        · simp only [overlapsAtTheEnd, hs, if_pos h, Option.getD_some]
          exact ⟨fun _ => ⟨hne, h.2, h.1⟩, fun _ => trivial⟩
        · simp only [overlapsAtTheEnd, hs, if_neg h, Option.getD_some]
          constructor
          · intro hc
            exact absurd hc (by simp)
          · intro hc
            exact absurd ⟨hc.2.2, hc.2.1⟩ h
  · norm_num [overlapsAtTheBeginning, maxOverlapping, tolerance]
  · norm_num [truncatedAtTheBeginning, maxOverlapping]
  · norm_num [planWindow, overlapsAtTheBeginning, overlapsAtTheEnd,
      hugeSilenceAtTheBeginning, hugeSilenceAtTheEnd, maxOverlapping, tolerance,
      silenceTolerance, maxSilence]

/-- C4 counterexample: in the long profile, the run with duration 100 and
the silence `(10, 11)` retains the interval even though its length 1 does
not exceed the spec's long-profile minimum `maxSilence + tolerance` and
it touches neither boundary — the in-code filter compares against
`minSilence` for both profiles. -/
theorem c4_counterexample :
    getSilenceInfo true
        [OutputLine.durationLine 0 0 100 0, OutputLine.silenceStartLine 10,
          OutputLine.silenceEndLine 11] = ([⟨10, 11⟩], 100) ∧
    ¬ specRetained true 100 ⟨10, 11⟩ := by
  norm_num [getSilenceInfo, getSilenceInfoLoop, specRetained, minSilence,
    tolerance, maxSilence]

/-- C4 (amended): the in-code retention filter does not depend on the
profile flag at all — `getSilenceInfo` returns the same result for both
profiles on the same output — and an interval is retained exactly when
its length exceeds `minSilence`, or it starts within `tolerance` of 0, or
it ends within `tolerance` of the duration parsed so far (shown on a
canonical one-interval run whose duration line comes first). -/
theorem c4_amended_retention (b₁ b₂ : Bool) (lines : List OutputLine) (d s e : ℚ) :
    getSilenceInfo b₁ lines = getSilenceInfo b₂ lines ∧
    (Silence.mk s e ∈
        (getSilenceInfo b₁
          [OutputLine.durationLine 0 0 d 0, OutputLine.silenceStartLine s,
            OutputLine.silenceEndLine e]).1 ↔
      (e - s > minSilence ∨ s < tolerance ∨ d - e < tolerance)) := by
  constructor
  · rfl
  · have harith : (0 * 3600 + 0 * 60 + d - 0 : ℚ) = d := by ring
    simp only [getSilenceInfo, getSilenceInfoLoop, harith, List.nil_append]
    split_ifs with hc
    · simpa using hc
    · simpa using hc

/-- C5 counterexample: the track with the single short silence
`(0.5, 1.2)` and duration 2 — an interval the detection filter retains,
its length 0.7 exceeding `minSilence` — is planned the window
`(0.9, 0.8)`, whose start exceeds its end: the window is not always a
subset of `[0, duration]` with non-negative length. -/
theorem c5_counterexample :
    planWindow ⟨"c5", "c5", 1, 1, [⟨1/2, 6/5⟩], [], 2⟩ = (9/10, 4/5) ∧
    ¬ ((planWindow ⟨"c5", "c5", 1, 1, [⟨1/2, 6/5⟩], [], 2⟩).1 ≤
        (planWindow ⟨"c5", "c5", 1, 1, [⟨1/2, 6/5⟩], [], 2⟩).2) := by
  have h : planWindow ⟨"c5", "c5", 1, 1, [⟨1/2, 6/5⟩], [], 2⟩ = (9/10, 4/5) := by
    norm_num [planWindow, overlapsAtTheBeginning, overlapsAtTheEnd,
      hugeSilenceAtTheBeginning, hugeSilenceAtTheEnd, maxOverlapping, tolerance,
      silenceTolerance, maxSilence]
  refine ⟨h, ?_⟩
  rw [h]
  norm_num

/-- C5 (amended): the planned window always satisfies `0 ≤ start` and
`end ≤ duration` (start is only ever raised from 0 by `math.Max`, end
only ever lowered from duration by `math.Min`); `start ≤ end` is not
guaranteed. -/
theorem c5_amended_window_bounds (t : Track) :
    0 ≤ (planWindow t).1 ∧ (planWindow t).2 ≤ t.duration := by
  unfold planWindow
  dsimp only
  constructor
  · split_ifs <;> simp [le_max_iff]
  · split_ifs <;> simp [min_le_iff]

/-- C6 counterexample: on a track the worker does trim (long silence
`(0, 5)` over duration 180, window `(3, 180)`), the failure-path action
sequence is exactly `[removeTmp, runTrim]`: the only temp removal
precedes the command — it discards a stale temp of an earlier run — and
no action at all follows the failed command, so whatever the failed
command wrote at the temp path is left behind, not discarded. -/
theorem c6_counterexample :
    fixTrackOps ⟨"c6", "c6", 1, 1, [], [⟨0, 5⟩], 180⟩ false =
      [FsOp.removeTmp "c6", FsOp.runTrim "c6" 3 177] ∧
    FsOp.removeTmp "c6" ∉
      (fixTrackOps ⟨"c6", "c6", 1, 1, [], [⟨0, 5⟩], 180⟩ false).drop 1 := by
  have h : fixTrackOps ⟨"c6", "c6", 1, 1, [], [⟨0, 5⟩], 180⟩ false =
      [FsOp.removeTmp "c6", FsOp.runTrim "c6" 3 177] := by
    norm_num [fixTrackOps, planWindow, overlapsAtTheBeginning, overlapsAtTheEnd,
      hugeSilenceAtTheBeginning, hugeSilenceAtTheEnd, maxOverlapping, maxSilence,
      silenceTolerance, tolerance]
  refine ⟨h, ?_⟩
  rw [h]
  simp

/-- C6 (amended): the original file is removed, or the temp renamed onto
its path, exactly when the trim command succeeds and the planned window
differs from `(0, duration)` — on a failed command the original is left
untouched under its own name — and the failure path is exactly: remove
the stale temp sibling, run the trim command, and nothing after it, so
no cleanup of the failed command's output ever happens. -/
theorem c6_amended_failure_no_cleanup (t : Track) (cmdOk : Bool) :
    ((FsOp.removeOrig t.path ∈ fixTrackOps t cmdOk ∨
        FsOp.renameTmpToOrig t.path ∈ fixTrackOps t cmdOk) ↔
      (cmdOk = true ∧ planWindow t ≠ (0, t.duration))) ∧
    (fixTrackOps t false = [] ∨
      fixTrackOps t false =
        [FsOp.removeTmp t.path,
          FsOp.runTrim t.path (planWindow t).1 ((planWindow t).2 - (planWindow t).1)]) := by
  have hiff : planWindow t ≠ (0, t.duration) ↔
      ((planWindow t).1 ≠ 0 ∨ (planWindow t).2 ≠ t.duration) := by
    rw [ne_eq, Prod.ext_iff, not_and_or]
  by_cases hw : (planWindow t).1 ≠ 0 ∨ (planWindow t).2 ≠ t.duration
  · cases cmdOk <;> simp [fixTrackOps, hw, hiff]
  · cases cmdOk <;> simp [fixTrackOps, hw, hiff]

/-- Per-track contribution: fixable never exceeds problems. -/
theorem countTrack_snd_le_fst (t : Track) : (countTrack t).2 ≤ (countTrack t).1 := by
  unfold countTrack
  split
  · simp
  · split <;> simp

/-- Generalised accumulator invariant for the counting fold: if fixable
stays at most problems in the accumulator, it does after the fold. -/
theorem countProblems_fold_le (ts : List Track) :
    ∀ a b : ℕ, b ≤ a →
      (ts.foldl (fun acc t => (acc.1 + (countTrack t).1, acc.2 + (countTrack t).2)) (a, b)).2 ≤
        (ts.foldl (fun acc t => (acc.1 + (countTrack t).1, acc.2 + (countTrack t).2)) (a, b)).1 := by
  induction ts with
  | nil =>
      intro a b h
      simpa using h
  | cons t ts ih =>
      intro a b h
      simp only [List.foldl_cons]
      exact ih (a + (countTrack t).1) (b + (countTrack t).2)
        (Nat.add_le_add h (countTrack_snd_le_fst t))

/-- C7: every track contributes at most 1 to the problems count, a
truncated track counts as one non-fixable problem regardless of the
other predicates, an untruncated track with one of the four
overlap/huge-silence predicates counts as one fixable problem, and over
any track list fixable ≤ problems. -/
theorem c7_count_priority :
    (∀ t : Track,
      ((truncatedAtTheBeginning t || truncatedAtTheEnd t) = true →
        countTrack t = (1, 0)) ∧
      ((truncatedAtTheBeginning t || truncatedAtTheEnd t) = false →
        (overlapsAtTheEnd t || overlapsAtTheBeginning t
            || hugeSilenceAtTheBeginning t || hugeSilenceAtTheEnd t) = true →
        countTrack t = (1, 1)) ∧
      (countTrack t).1 ≤ 1) ∧
    ∀ ts : List Track, (countProblems ts).2 ≤ (countProblems ts).1 := by
  constructor
  · intro t
    refine ⟨?_, ?_, ?_⟩
    · intro h
      simp [countTrack, h]
    · intro h1 h2
      simp [countTrack, h1, h2]
    · unfold countTrack
      split
      · simp
      · split <;> simp
  · intro ts
    exact countProblems_fold_le ts 0 0 (Nat.le_refl 0)

/-- C7 witness: the counting facts at concrete tracks — a truncated
track, a fixable track (one short silence `(1, 2)` in a 4-second track),
and the fixable ≤ problems bound on the two-track list. -/
theorem c7_count_priority_witness :
    countTrack ⟨"w7a", "w7a", 1, 1, [], [], 180⟩ = (1, 0) ∧
      countTrack ⟨"w7b", "w7b", 1, 1, [⟨1, 2⟩], [], 4⟩ = (1, 1) ∧
      (countProblems [⟨"w7a", "w7a", 1, 1, [], [], 180⟩,
          ⟨"w7b", "w7b", 1, 1, [⟨1, 2⟩], [], 4⟩]).2 ≤
        (countProblems [⟨"w7a", "w7a", 1, 1, [], [], 180⟩,
          ⟨"w7b", "w7b", 1, 1, [⟨1, 2⟩], [], 4⟩]).1 :=
  ⟨(c7_count_priority.1 ⟨"w7a", "w7a", 1, 1, [], [], 180⟩).1
      (by simp [truncatedAtTheBeginning]),
    (c7_count_priority.1 ⟨"w7b", "w7b", 1, 1, [⟨1, 2⟩], [], 4⟩).2.1
      (by norm_num [truncatedAtTheBeginning, truncatedAtTheEnd, maxOverlapping])
      (by norm_num [overlapsAtTheEnd, maxOverlapping, tolerance]),
    c7_count_priority.2 [⟨"w7a", "w7a", 1, 1, [], [], 180⟩,
      ⟨"w7b", "w7b", 1, 1, [⟨1, 2⟩], [], 4⟩]⟩

/-- C10: all six classifier predicates and the planned trim window
depend only on the first and last elements of each of the two silence
sets (and hence their emptiness) and on the duration — two tracks that
agree on those agree on every classification and on the plan, so
intervals strictly between the first and the last are never
inspected. -/
theorem c10_boundary_dependence (t₁ t₂ : Track)
    (hsh : t₁.silences.head? = t₂.silences.head?)
    (hsl : t₁.silences.getLast? = t₂.silences.getLast?)
    (hlh : t₁.longSilences.head? = t₂.longSilences.head?)
    (hll : t₁.longSilences.getLast? = t₂.longSilences.getLast?)
    (hd : t₁.duration = t₂.duration) :
    overlapsAtTheBeginning t₁ = overlapsAtTheBeginning t₂ ∧
      overlapsAtTheEnd t₁ = overlapsAtTheEnd t₂ ∧
      truncatedAtTheBeginning t₁ = truncatedAtTheBeginning t₂ ∧
      truncatedAtTheEnd t₁ = truncatedAtTheEnd t₂ ∧
      hugeSilenceAtTheBeginning t₁ = hugeSilenceAtTheBeginning t₂ ∧
      hugeSilenceAtTheEnd t₁ = hugeSilenceAtTheEnd t₂ ∧
      planWindow t₁ = planWindow t₂ := by
  unfold planWindow overlapsAtTheBeginning overlapsAtTheEnd truncatedAtTheBeginning
    truncatedAtTheEnd hugeSilenceAtTheBeginning hugeSilenceAtTheEnd
  rw [hsh, hsl, hlh, hll, hd]
  exact ⟨rfl, rfl, rfl, rfl, rfl, rfl, rfl⟩

/-- C10 witness: two tracks that differ only in a middle silence
interval (and in identity fields) receive identical classifications and
identical plans. -/
theorem c10_boundary_dependence_witness :
    overlapsAtTheBeginning ⟨"wa", "pa", 1, 1, [⟨0, 1⟩, ⟨5, 6⟩, ⟨20, 21⟩], [⟨0, 3⟩], 30⟩ =
        overlapsAtTheBeginning ⟨"wb", "pb", 2, 1, [⟨0, 1⟩, ⟨7, 8⟩, ⟨20, 21⟩], [⟨0, 3⟩], 30⟩ ∧
      overlapsAtTheEnd ⟨"wa", "pa", 1, 1, [⟨0, 1⟩, ⟨5, 6⟩, ⟨20, 21⟩], [⟨0, 3⟩], 30⟩ =
        overlapsAtTheEnd ⟨"wb", "pb", 2, 1, [⟨0, 1⟩, ⟨7, 8⟩, ⟨20, 21⟩], [⟨0, 3⟩], 30⟩ ∧
      truncatedAtTheBeginning ⟨"wa", "pa", 1, 1, [⟨0, 1⟩, ⟨5, 6⟩, ⟨20, 21⟩], [⟨0, 3⟩], 30⟩ =
        truncatedAtTheBeginning ⟨"wb", "pb", 2, 1, [⟨0, 1⟩, ⟨7, 8⟩, ⟨20, 21⟩], [⟨0, 3⟩], 30⟩ ∧
      truncatedAtTheEnd ⟨"wa", "pa", 1, 1, [⟨0, 1⟩, ⟨5, 6⟩, ⟨20, 21⟩], [⟨0, 3⟩], 30⟩ =
        truncatedAtTheEnd ⟨"wb", "pb", 2, 1, [⟨0, 1⟩, ⟨7, 8⟩, ⟨20, 21⟩], [⟨0, 3⟩], 30⟩ ∧
      hugeSilenceAtTheBeginning ⟨"wa", "pa", 1, 1, [⟨0, 1⟩, ⟨5, 6⟩, ⟨20, 21⟩], [⟨0, 3⟩], 30⟩ =
        hugeSilenceAtTheBeginning ⟨"wb", "pb", 2, 1, [⟨0, 1⟩, ⟨7, 8⟩, ⟨20, 21⟩], [⟨0, 3⟩], 30⟩ ∧
      hugeSilenceAtTheEnd ⟨"wa", "pa", 1, 1, [⟨0, 1⟩, ⟨5, 6⟩, ⟨20, 21⟩], [⟨0, 3⟩], 30⟩ =
        hugeSilenceAtTheEnd ⟨"wb", "pb", 2, 1, [⟨0, 1⟩, ⟨7, 8⟩, ⟨20, 21⟩], [⟨0, 3⟩], 30⟩ ∧
      planWindow ⟨"wa", "pa", 1, 1, [⟨0, 1⟩, ⟨5, 6⟩, ⟨20, 21⟩], [⟨0, 3⟩], 30⟩ =
        planWindow ⟨"wb", "pb", 2, 1, [⟨0, 1⟩, ⟨7, 8⟩, ⟨20, 21⟩], [⟨0, 3⟩], 30⟩ :=
  c10_boundary_dependence
    ⟨"wa", "pa", 1, 1, [⟨0, 1⟩, ⟨5, 6⟩, ⟨20, 21⟩], [⟨0, 3⟩], 30⟩
    ⟨"wb", "pb", 2, 1, [⟨0, 1⟩, ⟨7, 8⟩, ⟨20, 21⟩], [⟨0, 3⟩], 30⟩
    rfl rfl rfl rfl rfl

end Mp3Check
